import Mathlib

/-!
Shallow embedding of the runtime type algebra of the Move VM
(`language/move-vm/types/src/loaded_data/types.rs`): the `FatType` /
`FatStructType` data model and its operations — substitution, type-tag
derivation, layout/kind derivation, resource classification, debug
formatting, and the fallible conversion into `MoveTypeLayout` — together
with theorems settling the specification claims about them.
-/

set_option maxHeartbeats 1000000

namespace LibraTypes

/-- Account addresses are opaque fixed-size byte strings compared only for
equality here; modelled as natural numbers. -/
abbrev AccountAddress := Nat

/-- Identifiers (module and struct names) modelled as strings. -/
abbrev Identifier := String

/-- The two status codes produced by this module
(`StatusCode::UNKNOWN_INVARIANT_VIOLATION_ERROR` and
`StatusCode::ABORT_TYPE_MISMATCH_ERROR`). -/
inductive StatusCode where
  | UNKNOWN_INVARIANT_VIOLATION_ERROR
  | ABORT_TYPE_MISMATCH_ERROR
  deriving DecidableEq, Repr

/-- Source `PartialVMError`: a status code with an optional message. -/
structure PartialVMError where
  major_status : StatusCode
  message : Option String
  deriving DecidableEq, Repr

/-- Source `PartialVMError::new`. -/
def PartialVMError.new (s : StatusCode) : PartialVMError := ⟨s, none⟩

/-- Source `PartialVMError::with_message`. -/
def PartialVMError.with_message (e : PartialVMError) (m : String) : PartialVMError :=
  { e with message := some m }

/-- Source `PartialVMResult<T> = Result<T, PartialVMError>`. -/
abbrev PartialVMResult (α : Type) := Except PartialVMError α

mutual
/-- Source `FatStructType`: address, module, name, declared resource flag, type
arguments and field types (the `layout` field). -/
inductive FatStructType where
  | mk (address : AccountAddress) (module : Identifier) (name : Identifier)
      (is_resource : Bool) (ty_args : List FatType) (layout : List FatType) : FatStructType

/-- Source `FatType`: the VM representation of a Move runtime type. -/
inductive FatType where
  | Bool
  | U8
  | U64
  | U128
  | Address
  | Signer
  | Vector (ty : FatType)
  | Struct (s : FatStructType)
  | Reference (ty : FatType)
  | MutableReference (ty : FatType)
  | TyParam (idx : Nat)
end

/-- Field accessor for `FatStructType.address`. -/
def FatStructType.address : FatStructType → AccountAddress
  | .mk a _ _ _ _ _ => a

/-- Field accessor for `FatStructType.module`. -/
def FatStructType.module : FatStructType → Identifier
  | .mk _ m _ _ _ _ => m

/-- Field accessor for `FatStructType.name`. -/
def FatStructType.name : FatStructType → Identifier
  | .mk _ _ n _ _ _ => n

/-- Field accessor for `FatStructType.is_resource` (the declared flag). -/
def FatStructType.is_resource : FatStructType → Bool
  | .mk _ _ _ r _ _ => r

/-- Field accessor for `FatStructType.ty_args`. -/
def FatStructType.ty_args : FatStructType → List FatType
  | .mk _ _ _ _ t _ => t

/-- Field accessor for `FatStructType.layout` (the ordered field types). -/
def FatStructType.layout : FatStructType → List FatType
  | .mk _ _ _ _ _ l => l

mutual
/-- Source `StructTag`: address, module, name and type parameters of a struct. -/
inductive StructTag where
  | mk (address : AccountAddress) (module : Identifier) (name : Identifier)
      (type_params : List TypeTag) : StructTag

/-- Source `TypeTag`: the canonical storage-addressable identity of a type. -/
inductive TypeTag where
  | Bool
  | U8
  | U64
  | U128
  | Address
  | Signer
  | Vector (t : TypeTag)
  | Struct (s : StructTag)
end

/-- Source `MoveKind`: resource / copyable classification. -/
inductive MoveKind where
  | Resource
  | Copyable
  deriving DecidableEq, Repr

/-- Source `MoveKindInfo`: classification at every nesting level, as constructed by
`layout_and_kind_info` (`Base`, `Vector(kind, elem)`, `Struct(kind, fields)`). -/
inductive MoveKindInfo where
  | Base (k : MoveKind)
  | Vector (k : MoveKind) (elem : MoveKindInfo)
  | Struct (k : MoveKind) (fields : List MoveKindInfo)

/-- Source `MoveKindInfo::kind`: the classification at the top of the tree. -/
def MoveKindInfo.kind : MoveKindInfo → MoveKind
  | .Base k => k
  | .Vector k _ => k
  | .Struct k _ => k

/-- Modelled from the spec: the canonical value-layout artifact is a
deterministic tree of leaf kinds (`Bool, U8, U64, U128, Address, Signer`)
and composite kinds (`Vector(L)`, `Struct(ordered sequence of L)`), with no
extra metadata (§6); its Rust source (`move_core_types::value`) is outside
the supplied files. -/
inductive MoveTypeLayout where
  | Bool
  | U8
  | U64
  | U128
  | Address
  | Signer
  | Vector (elem : MoveTypeLayout)
  | Struct (fields : List MoveTypeLayout)

/-- Source `MoveStructLayout`: the ordered sequence of field layouts. -/
abbrev MoveStructLayout := List MoveTypeLayout

/-- Source `MoveStructLayout::new`. -/
def MoveStructLayout.new (fields : List MoveTypeLayout) : MoveStructLayout := fields

mutual
/-- Rust derived `Debug` rendering of a `FatType` (used in error messages). -/
def FatType.debugFmt : FatType → String
  | .Bool => "Bool"
  | .U8 => "U8"
  | .U64 => "U64"
  | .U128 => "U128"
  | .Address => "Address"
  | .Signer => "Signer"
  | .Vector t => "Vector(" ++ t.debugFmt ++ ")"
  | .Struct s => "Struct(" ++ s.debugFmt ++ ")"
  | .Reference t => "Reference(" ++ t.debugFmt ++ ")"
  | .MutableReference t => "MutableReference(" ++ t.debugFmt ++ ")"
  | .TyParam i => "TyParam(" ++ toString i ++ ")"

/-- Rust derived `Debug` rendering of a `FatStructType`. -/
def FatStructType.debugFmt : FatStructType → String
  | .mk a m n r targs fields =>
    "FatStructType \x7b address: " ++ toString a ++
      ", module: Identifier(\"" ++ m ++ "\"), name: Identifier(\"" ++ n ++
      "\"), is_resource: " ++ toString r ++
      ", ty_args: [" ++ debugFmtList targs ++
      "], layout: [" ++ debugFmtList fields ++ "] \x7d"

/-- Rust derived `Debug` rendering of a list of `FatType`, comma separated. -/
def debugFmtList : List FatType → String
  | [] => ""
  | [t] => t.debugFmt
  | t :: u :: rest => t.debugFmt ++ ", " ++ debugFmtList (u :: rest)
end

mutual
/-- Source `FatType::subst`: replace each `TyParam(i)` with `ty_args[i]`; an
out-of-bounds index is an invariant violation. -/
def FatType.subst (t : FatType) (ty_args : List FatType) : PartialVMResult FatType :=
  match t with
  | .TyParam idx =>
    match ty_args[idx]? with
    | some ty => .ok ty
    | none =>
      .error ((PartialVMError.new .UNKNOWN_INVARIANT_VIOLATION_ERROR).with_message
        ("fat type substitution failed: index out of bounds -- len " ++
          toString ty_args.length ++ " got " ++ toString idx))
  | .Bool => .ok .Bool
  | .U8 => .ok .U8
  | .U64 => .ok .U64
  | .U128 => .ok .U128
  | .Address => .ok .Address
  | .Signer => .ok .Signer
  | .Vector ty =>
    match ty.subst ty_args with
    | .ok ty2 => .ok (.Vector ty2)
    | .error e => .error e
  | .Reference ty =>
    match ty.subst ty_args with
    | .ok ty2 => .ok (.Reference ty2)
    | .error e => .error e
  | .MutableReference ty =>
    match ty.subst ty_args with
    | .ok ty2 => .ok (.MutableReference ty2)
    | .error e => .error e
  | .Struct struct_ty =>
    match struct_ty.subst ty_args with
    | .ok s2 => .ok (.Struct s2)
    | .error e => .error e

/-- Source `FatStructType::subst`: substitute through both `ty_args` and `layout`;
address, module, name and the resource flag are unchanged. -/
def FatStructType.subst (s : FatStructType) (ty_args : List FatType) :
    PartialVMResult FatStructType :=
  match s with
  | .mk a m n r targs fields =>
    match substList targs ty_args with
    | .error e => .error e
    | .ok targs2 =>
      match substList fields ty_args with
      | .error e => .error e
      | .ok fields2 => .ok (.mk a m n r targs2 fields2)

/-- Substitute each element of a list in order, propagating the first error
(the `collect::<PartialVMResult<_>>` pattern). -/
def substList (ts : List FatType) (ty_args : List FatType) :
    PartialVMResult (List FatType) :=
  match ts with
  | [] => .ok []
  | t :: rest =>
    match t.subst ty_args with
    | .error e => .error e
    | .ok t2 =>
      match substList rest ty_args with
      | .error e => .error e
      | .ok rest2 => .ok (t2 :: rest2)
end

mutual
/-- Source `FatType::type_tag`: primitives map one-to-one, vectors wrap the element
tag, structs defer to `struct_tag`; references and type parameters are
invariant violations. -/
def FatType.type_tag (t : FatType) : PartialVMResult TypeTag :=
  match t with
  | .Bool => .ok .Bool
  | .U8 => .ok .U8
  | .U64 => .ok .U64
  | .U128 => .ok .U128
  | .Address => .ok .Address
  | .Signer => .ok .Signer
  | .Vector ty =>
    match ty.type_tag with
    | .ok tag => .ok (.Vector tag)
    | .error e => .error e
  | .Struct struct_ty =>
    match struct_ty.struct_tag with
    | .ok tag => .ok (.Struct tag)
    | .error e => .error e
  | .Reference ty =>
    .error ((PartialVMError.new .UNKNOWN_INVARIANT_VIOLATION_ERROR).with_message
      ("cannot derive type tag for " ++ (FatType.Reference ty).debugFmt))
  | .MutableReference ty =>
    .error ((PartialVMError.new .UNKNOWN_INVARIANT_VIOLATION_ERROR).with_message
      ("cannot derive type tag for " ++ (FatType.MutableReference ty).debugFmt))
  | .TyParam i =>
    .error ((PartialVMError.new .UNKNOWN_INVARIANT_VIOLATION_ERROR).with_message
      ("cannot derive type tag for " ++ (FatType.TyParam i).debugFmt))

/-- Source `FatStructType::struct_tag`: tag built from address, module, name and the
tags of the `ty_args`; the `layout` (fields) sequence is never consulted. -/
def FatStructType.struct_tag (s : FatStructType) : PartialVMResult StructTag :=
  match s with
  | .mk a m n _ targs _ =>
    match typeTagList targs with
    | .error e => .error e
    | .ok tags => .ok (.mk a m n tags)

/-- Derive the type tag of each element of a list in order, propagating the
first error. -/
def typeTagList (ts : List FatType) : PartialVMResult (List TypeTag) :=
  match ts with
  | [] => .ok []
  | t :: rest =>
    match t.type_tag with
    | .error e => .error e
    | .ok tag =>
      match typeTagList rest with
      | .error e => .error e
      | .ok tags => .ok (tag :: tags)
end

mutual
/-- Source `FatType::layout_and_kind_info`: one traversal producing the kind tree and
the value layout; references and type parameters are invariant violations. -/
def FatType.layout_and_kind_info (t : FatType) :
    PartialVMResult (MoveKindInfo × MoveTypeLayout) :=
  match t with
  | .Bool => .ok (.Base .Copyable, .Bool)
  | .U8 => .ok (.Base .Copyable, .U8)
  | .U64 => .ok (.Base .Copyable, .U64)
  | .U128 => .ok (.Base .Copyable, .U128)
  | .Address => .ok (.Base .Copyable, .Address)
  | .Signer => .ok (.Base .Resource, .Signer)
  | .Vector ty =>
    match ty.layout_and_kind_info with
    | .error e => .error e
    | .ok (k, l) => .ok (.Vector k.kind k, .Vector l)
  | .Struct struct_ty =>
    match struct_ty.layout_and_kind_info with
    | .error e => .error e
    | .ok ((k, field_kinds), field_layouts) =>
      .ok (.Struct k field_kinds, .Struct field_layouts)
  | .Reference ty =>
    .error ((PartialVMError.new .UNKNOWN_INVARIANT_VIOLATION_ERROR).with_message
      ("cannot derive type layout for " ++ (FatType.Reference ty).debugFmt))
  | .MutableReference ty =>
    .error ((PartialVMError.new .UNKNOWN_INVARIANT_VIOLATION_ERROR).with_message
      ("cannot derive type layout for " ++ (FatType.MutableReference ty).debugFmt))
  | .TyParam i =>
    .error ((PartialVMError.new .UNKNOWN_INVARIANT_VIOLATION_ERROR).with_message
      ("cannot derive type layout for " ++ (FatType.TyParam i).debugFmt))

/-- Source `FatStructType::layout_and_kind_info`: recurse per field in declared
order; the struct kind is `Resource` iff the declared flag is set; the layout
is the ordered aggregate of the per-field layouts. -/
def FatStructType.layout_and_kind_info (s : FatStructType) :
    PartialVMResult ((MoveKind × List MoveKindInfo) × MoveStructLayout) :=
  match s with
  | .mk _ _ _ r _ fields =>
    match layoutAndKindList fields with
    | .error e => .error e
    | .ok res =>
      .ok ((if r then .Resource else .Copyable, res.map Prod.fst),
        MoveStructLayout.new (res.map Prod.snd))

/-- Derive `layout_and_kind_info` for each element of a list in order,
propagating the first error. -/
def layoutAndKindList (ts : List FatType) :
    PartialVMResult (List (MoveKindInfo × MoveTypeLayout)) :=
  match ts with
  | [] => .ok []
  | t :: rest =>
    match t.layout_and_kind_info with
    | .error e => .error e
    | .ok kl =>
      match layoutAndKindList rest with
      | .error e => .error e
      | .ok kls => .ok (kl :: kls)
end

/-- Result type of the resource classifier; named so that the builtin `Bool`
is not shadowed by the `FatType.Bool` constructor inside the declaration. -/
abbrev BoolResult := PartialVMResult Bool

/-- Source `FatType::is_resource`: layout-independent resource classification.
References are `false`, `Signer` is `true`, vectors defer to the element,
structs return the declared flag without inspecting fields; a `TyParam` is an
invariant violation. -/
def FatType.is_resource : FatType → BoolResult
  | .Bool | .U8 | .U64 | .U128 | .Address | .Reference _ | .MutableReference _ => .ok false
  | .Signer => .ok true
  | .Vector ty => ty.is_resource
  | .Struct struct_ty => .ok struct_ty.is_resource
  | .TyParam _ =>
    .error ((PartialVMError.new .UNKNOWN_INVARIANT_VIOLATION_ERROR).with_message
      "cannot check if a type parameter is a resource or not")

mutual
/-- Source `FatType::debug_print`: canonical human-readable rendering, modelled as
returning the text written to the buffer; an uninstantiated `TyParam` is an
invariant violation. -/
def FatType.debug_print (t : FatType) : PartialVMResult String :=
  match t with
  | .Bool => .ok "bool"
  | .U8 => .ok "u8"
  | .U64 => .ok "u64"
  | .U128 => .ok "u128"
  | .Address => .ok "address"
  | .Signer => .ok "signer"
  | .Vector elem_ty =>
    match elem_ty.debug_print with
    | .error e => .error e
    | .ok txt => .ok ("vector<" ++ txt ++ ">")
  | .Struct struct_ty => struct_ty.debug_print
  | .Reference ty =>
    match ty.debug_print with
    | .error e => .error e
    | .ok txt => .ok ("&" ++ txt)
  | .MutableReference ty =>
    match ty.debug_print with
    | .error e => .error e
    | .ok txt => .ok ("&mut " ++ txt)
  | .TyParam _ =>
    .error ((PartialVMError.new .UNKNOWN_INVARIANT_VIOLATION_ERROR).with_message
      "cannot print out uninstantiated type params")

/-- Source `FatStructType::debug_print`: `module::name`, followed by the angle-bracket
type-argument list only when `ty_args` is nonempty. -/
def FatStructType.debug_print (s : FatStructType) : PartialVMResult String :=
  match s with
  | .mk _ m n _ targs _ =>
    match targs with
    | [] => .ok (m ++ "::" ++ n)
    | ty :: rest =>
      match ty.debug_print with
      | .error e => .error e
      | .ok txt0 =>
        match debugPrintRest rest with
        | .error e => .error e
        | .ok txtRest => .ok (m ++ "::" ++ n ++ "<" ++ txt0 ++ txtRest ++ ">")

/-- Render the remaining type arguments, each preceded by `", "`. -/
def debugPrintRest (ts : List FatType) : PartialVMResult String :=
  match ts with
  | [] => .ok ""
  | ty :: rest =>
    match ty.debug_print with
    | .error e => .error e
    | .ok txt =>
      match debugPrintRest rest with
      | .error e => .error e
      | .ok txtRest => .ok (", " ++ txt ++ txtRest)
end

mutual
/-- Source `TryInto<MoveTypeLayout> for &FatType` (the Layout Bridge): the layout
half of the traversal alone; references and type parameters fall into the
catch-all arm, which errors with `ABORT_TYPE_MISMATCH_ERROR` and no message. -/
def FatType.tryIntoLayout (t : FatType) : PartialVMResult MoveTypeLayout :=
  match t with
  | .Address => .ok .Address
  | .U8 => .ok .U8
  | .U64 => .ok .U64
  | .U128 => .ok .U128
  | .Bool => .ok .Bool
  | .Vector v =>
    match v.tryIntoLayout with
    | .error e => .error e
    | .ok l => .ok (.Vector l)
  | .Struct (.mk _ _ _ _ _ fields) =>
    match tryIntoLayoutList fields with
    | .error e => .error e
    | .ok ls => .ok (.Struct (MoveStructLayout.new ls))
  | .Signer => .ok .Signer
  | .Reference _ | .MutableReference _ | .TyParam _ =>
    .error (PartialVMError.new .ABORT_TYPE_MISMATCH_ERROR)

/-- Convert each element of a list in order, propagating the first error. -/
def tryIntoLayoutList (ts : List FatType) : PartialVMResult (List MoveTypeLayout) :=
  match ts with
  | [] => .ok []
  | t :: rest =>
    match t.tryIntoLayout with
    | .error e => .error e
    | .ok l =>
      match tryIntoLayoutList rest with
      | .error e => .error e
      | .ok ls => .ok (l :: ls)
end

/-- Source `TryInto<MoveStructLayout> for &FatStructType`: convert each field type. -/
def FatStructType.tryIntoStructLayout (s : FatStructType) :
    PartialVMResult MoveStructLayout :=
  match tryIntoLayoutList s.layout with
  | .error e => .error e
  | .ok ls => .ok (MoveStructLayout.new ls)

mutual
/-- Whether a type contains a `TyParam` node anywhere (struct type arguments
and fields included). -/
def FatType.hasTyParam : FatType → Bool
  | .Bool | .U8 | .U64 | .U128 | .Address | .Signer => false
  | .Vector t => t.hasTyParam
  | .Reference t => t.hasTyParam
  | .MutableReference t => t.hasTyParam
  | .Struct s => s.hasTyParam
  | .TyParam _ => true

/-- Whether a struct descriptor contains a `TyParam` node anywhere. -/
def FatStructType.hasTyParam : FatStructType → Bool
  | .mk _ _ _ _ targs fields => listHasTyParam targs || listHasTyParam fields

/-- Whether any member of a list contains a `TyParam` node. -/
def listHasTyParam : List FatType → Bool
  | [] => false
  | t :: rest => t.hasTyParam || listHasTyParam rest
end

mutual
/-- Whether a type is concrete: no `TyParam`, `Reference` or
`MutableReference` node anywhere. -/
def FatType.isConcrete : FatType → Bool
  | .Bool | .U8 | .U64 | .U128 | .Address | .Signer => true
  | .Vector t => t.isConcrete
  | .Struct s => s.isConcrete
  | .Reference _ | .MutableReference _ | .TyParam _ => false

/-- Whether a struct descriptor is concrete in its type arguments and fields. -/
def FatStructType.isConcrete : FatStructType → Bool
  | .mk _ _ _ _ targs fields => listConcrete targs && listConcrete fields

/-- Whether every member of a list is concrete. -/
def listConcrete : List FatType → Bool
  | [] => true
  | t :: rest => t.isConcrete && listConcrete rest
end

/-- Strip any number of outer `Vector` wrappers. -/
def stripVectors : FatType → FatType
  | .Vector t => stripVectors t
  | .Bool => .Bool
  | .U8 => .U8
  | .U64 => .U64
  | .U128 => .U128
  | .Address => .Address
  | .Signer => .Signer
  | .Struct s => .Struct s
  | .Reference t => .Reference t
  | .MutableReference t => .MutableReference t
  | .TyParam i => .TyParam i

/-- Whether the head of a type is a `Reference`, `MutableReference` or
`TyParam` node — the nodes canonicalization rejects. -/
def isBadNode : FatType → Bool
  | .Reference _ | .MutableReference _ | .TyParam _ => true
  | _ => false

/-- Whether the head of a type is a `TyParam` node. -/
def isTyParamNode : FatType → Bool
  | .TyParam _ => true
  | _ => false

mutual
theorem FatType.subst_id (t : FatType) (args : List FatType) (h : t.hasTyParam = false) :
    t.subst args = .ok t := by
  cases t with
  | Bool => rfl
  | U8 => rfl
  | U64 => rfl
  | U128 => rfl
  | Address => rfl
  | Signer => rfl
  | Vector ty =>
    have h1 : ty.hasTyParam = false := by simpa [FatType.hasTyParam] using h
    simp [FatType.subst, FatType.subst_id ty args h1]
  | Reference ty =>
    have h1 : ty.hasTyParam = false := by simpa [FatType.hasTyParam] using h
    simp [FatType.subst, FatType.subst_id ty args h1]
  | MutableReference ty =>
    have h1 : ty.hasTyParam = false := by simpa [FatType.hasTyParam] using h
    simp [FatType.subst, FatType.subst_id ty args h1]
  | Struct s =>
    have h1 : s.hasTyParam = false := by simpa [FatType.hasTyParam] using h
    simp [FatType.subst, FatStructType.subst_id_struct s args h1]
  | TyParam i => simp [FatType.hasTyParam] at h
termination_by sizeOf t

theorem FatStructType.subst_id_struct (s : FatStructType) (args : List FatType)
    (h : s.hasTyParam = false) : s.subst args = .ok s := by
  cases s with
  | mk a m n r targs fields =>
    have h1 : listHasTyParam targs = false := by
      simp [FatStructType.hasTyParam] at h; exact h.1
    have h2 : listHasTyParam fields = false := by
      simp [FatStructType.hasTyParam] at h; exact h.2
    simp [FatStructType.subst, substList_id targs args h1, substList_id fields args h2]
termination_by sizeOf s

theorem substList_id (ts : List FatType) (args : List FatType)
    (h : listHasTyParam ts = false) : substList ts args = .ok ts := by
  cases ts with
  | nil => rfl
  | cons t rest =>
    have h1 : t.hasTyParam = false := by simp [listHasTyParam] at h; exact h.1
    have h2 : listHasTyParam rest = false := by simp [listHasTyParam] at h; exact h.2
    simp [substList, FatType.subst_id t args h1, substList_id rest args h2]
termination_by sizeOf ts
end

mutual
theorem FatType.subst_err (t : FatType) (args : List FatType) (e : PartialVMError)
    (h : t.subst args = .error e) :
    e.major_status = .UNKNOWN_INVARIANT_VIOLATION_ERROR ∧ e.message.isSome = true := by
  cases t with
  | Bool => simp [FatType.subst] at h
  | U8 => simp [FatType.subst] at h
  | U64 => simp [FatType.subst] at h
  | U128 => simp [FatType.subst] at h
  | Address => simp [FatType.subst] at h
  | Signer => simp [FatType.subst] at h
  | Vector ty =>
    cases heq : ty.subst args with
    | ok ty2 => simp [FatType.subst, heq] at h
    | error e2 =>
      simp [FatType.subst, heq] at h
      exact h ▸ FatType.subst_err ty args e2 heq
  | Reference ty =>
    cases heq : ty.subst args with
    | ok ty2 => simp [FatType.subst, heq] at h
    | error e2 =>
      simp [FatType.subst, heq] at h
      exact h ▸ FatType.subst_err ty args e2 heq
  | MutableReference ty =>
    cases heq : ty.subst args with
    | ok ty2 => simp [FatType.subst, heq] at h
    | error e2 =>
      simp [FatType.subst, heq] at h
      exact h ▸ FatType.subst_err ty args e2 heq
  | Struct s =>
    cases heq : s.subst args with
    | ok s2 => simp [FatType.subst, heq] at h
    | error e2 =>
      simp [FatType.subst, heq] at h
      exact h ▸ FatStructType.subst_err_struct s args e2 heq
  | TyParam i =>
    cases hg : args[i]? with
    | some ty => simp [FatType.subst, hg] at h
    | none =>
      simp [FatType.subst, hg] at h
      simp [← h, PartialVMError.new, PartialVMError.with_message]
termination_by sizeOf t

theorem FatStructType.subst_err_struct (s : FatStructType) (args : List FatType)
    (e : PartialVMError) (h : s.subst args = .error e) :
    e.major_status = .UNKNOWN_INVARIANT_VIOLATION_ERROR ∧ e.message.isSome = true := by
  cases s with
  | mk a m n r targs fields =>
    cases heq : substList targs args with
    | error e2 =>
      simp [FatStructType.subst, heq] at h
      exact h ▸ substList_err targs args e2 heq
    | ok targs2 =>
      cases heq2 : substList fields args with
      | error e2 =>
        simp [FatStructType.subst, heq, heq2] at h
        exact h ▸ substList_err fields args e2 heq2
      | ok fields2 => simp [FatStructType.subst, heq, heq2] at h
termination_by sizeOf s

theorem substList_err (ts : List FatType) (args : List FatType) (e : PartialVMError)
    (h : substList ts args = .error e) :
    e.major_status = .UNKNOWN_INVARIANT_VIOLATION_ERROR ∧ e.message.isSome = true := by
  cases ts with
  | nil => simp [substList] at h
  | cons t rest =>
    cases heq : t.subst args with
    | error e2 =>
      simp [substList, heq] at h
      exact h ▸ FatType.subst_err t args e2 heq
    | ok t2 =>
      cases heq2 : substList rest args with
      | error e2 =>
        simp [substList, heq, heq2] at h
        exact h ▸ substList_err rest args e2 heq2
      | ok rest2 => simp [substList, heq, heq2] at h
termination_by sizeOf ts
end

mutual
theorem FatType.type_tag_err (t : FatType) (e : PartialVMError)
    (h : t.type_tag = .error e) :
    e.major_status = .UNKNOWN_INVARIANT_VIOLATION_ERROR ∧ e.message.isSome = true := by
  cases t with
  | Bool => simp [FatType.type_tag] at h
  | U8 => simp [FatType.type_tag] at h
  | U64 => simp [FatType.type_tag] at h
  | U128 => simp [FatType.type_tag] at h
  | Address => simp [FatType.type_tag] at h
  | Signer => simp [FatType.type_tag] at h
  | Vector ty =>
    cases heq : ty.type_tag with
    | ok tag => simp [FatType.type_tag, heq] at h
    | error e2 =>
      simp [FatType.type_tag, heq] at h
      exact h ▸ FatType.type_tag_err ty e2 heq
  | Struct s =>
    cases heq : s.struct_tag with
    | ok tag => simp [FatType.type_tag, heq] at h
    | error e2 =>
      simp [FatType.type_tag, heq] at h
      exact h ▸ FatStructType.struct_tag_err s e2 heq
  | Reference ty =>
    simp [FatType.type_tag] at h
    simp [← h, PartialVMError.new, PartialVMError.with_message]
  | MutableReference ty =>
    simp [FatType.type_tag] at h
    simp [← h, PartialVMError.new, PartialVMError.with_message]
  | TyParam i =>
    simp [FatType.type_tag] at h
    simp [← h, PartialVMError.new, PartialVMError.with_message]
termination_by sizeOf t

theorem FatStructType.struct_tag_err (s : FatStructType) (e : PartialVMError)
    (h : s.struct_tag = .error e) :
    e.major_status = .UNKNOWN_INVARIANT_VIOLATION_ERROR ∧ e.message.isSome = true := by
  cases s with
  | mk a m n r targs fields =>
    cases heq : typeTagList targs with
    | error e2 =>
      simp [FatStructType.struct_tag, heq] at h
      exact h ▸ typeTagList_err targs e2 heq
    | ok tags => simp [FatStructType.struct_tag, heq] at h
termination_by sizeOf s

theorem typeTagList_err (ts : List FatType) (e : PartialVMError)
    (h : typeTagList ts = .error e) :
    e.major_status = .UNKNOWN_INVARIANT_VIOLATION_ERROR ∧ e.message.isSome = true := by
  cases ts with
  | nil => simp [typeTagList] at h
  | cons t rest =>
    cases heq : t.type_tag with
    | error e2 =>
      simp [typeTagList, heq] at h
      exact h ▸ FatType.type_tag_err t e2 heq
    | ok tag =>
      cases heq2 : typeTagList rest with
      | error e2 =>
        simp [typeTagList, heq, heq2] at h
        exact h ▸ typeTagList_err rest e2 heq2
      | ok tags => simp [typeTagList, heq, heq2] at h
termination_by sizeOf ts
end

mutual
theorem FatType.layout_and_kind_info_err (t : FatType) (e : PartialVMError)
    (h : t.layout_and_kind_info = .error e) :
    e.major_status = .UNKNOWN_INVARIANT_VIOLATION_ERROR ∧ e.message.isSome = true := by
  cases t with
  | Bool => simp [FatType.layout_and_kind_info] at h
  | U8 => simp [FatType.layout_and_kind_info] at h
  | U64 => simp [FatType.layout_and_kind_info] at h
  | U128 => simp [FatType.layout_and_kind_info] at h
  | Address => simp [FatType.layout_and_kind_info] at h
  | Signer => simp [FatType.layout_and_kind_info] at h
  | Vector ty =>
    cases heq : ty.layout_and_kind_info with
    | ok kl => simp [FatType.layout_and_kind_info, heq] at h
    | error e2 =>
      simp [FatType.layout_and_kind_info, heq] at h
      exact h ▸ FatType.layout_and_kind_info_err ty e2 heq
  | Struct s =>
    cases heq : s.layout_and_kind_info with
    | ok kl => simp [FatType.layout_and_kind_info, heq] at h
    | error e2 =>
      simp [FatType.layout_and_kind_info, heq] at h
      exact h ▸ FatStructType.layout_and_kind_info_err_struct s e2 heq
  | Reference ty =>
    simp [FatType.layout_and_kind_info] at h
    simp [← h, PartialVMError.new, PartialVMError.with_message]
  | MutableReference ty =>
    simp [FatType.layout_and_kind_info] at h
    simp [← h, PartialVMError.new, PartialVMError.with_message]
  | TyParam i =>
    simp [FatType.layout_and_kind_info] at h
    simp [← h, PartialVMError.new, PartialVMError.with_message]
termination_by sizeOf t

theorem FatStructType.layout_and_kind_info_err_struct (s : FatStructType) (e : PartialVMError)
    (h : s.layout_and_kind_info = .error e) :
    e.major_status = .UNKNOWN_INVARIANT_VIOLATION_ERROR ∧ e.message.isSome = true := by
  cases s with
  | mk a m n r targs fields =>
    cases heq : layoutAndKindList fields with
    | error e2 =>
      simp [FatStructType.layout_and_kind_info, heq] at h
      exact h ▸ layoutAndKindList_err fields e2 heq
    | ok res => simp [FatStructType.layout_and_kind_info, heq] at h
termination_by sizeOf s

theorem layoutAndKindList_err (ts : List FatType) (e : PartialVMError)
    (h : layoutAndKindList ts = .error e) :
    e.major_status = .UNKNOWN_INVARIANT_VIOLATION_ERROR ∧ e.message.isSome = true := by
  cases ts with
  | nil => simp [layoutAndKindList] at h
  | cons t rest =>
    cases heq : t.layout_and_kind_info with
    | error e2 =>
      simp [layoutAndKindList, heq] at h
      exact h ▸ FatType.layout_and_kind_info_err t e2 heq
    | ok kl =>
      cases heq2 : layoutAndKindList rest with
      | error e2 =>
        simp [layoutAndKindList, heq, heq2] at h
        exact h ▸ layoutAndKindList_err rest e2 heq2
      | ok kls => simp [layoutAndKindList, heq, heq2] at h
termination_by sizeOf ts
end

theorem FatType.is_resource_err (t : FatType) (e : PartialVMError)
    (h : t.is_resource = .error e) :
    e.major_status = .UNKNOWN_INVARIANT_VIOLATION_ERROR ∧ e.message.isSome = true := by
  cases t with
  | Bool => simp [FatType.is_resource] at h
  | U8 => simp [FatType.is_resource] at h
  | U64 => simp [FatType.is_resource] at h
  | U128 => simp [FatType.is_resource] at h
  | Address => simp [FatType.is_resource] at h
  | Signer => simp [FatType.is_resource] at h
  | Vector ty =>
    exact FatType.is_resource_err ty e (by simpa [FatType.is_resource] using h)
  | Struct s => simp [FatType.is_resource] at h
  | Reference ty => simp [FatType.is_resource] at h
  | MutableReference ty => simp [FatType.is_resource] at h
  | TyParam i =>
    simp [FatType.is_resource] at h
    simp [← h, PartialVMError.new, PartialVMError.with_message]
termination_by sizeOf t

mutual
theorem FatType.debug_print_err (t : FatType) (e : PartialVMError)
    (h : t.debug_print = .error e) :
    e.major_status = .UNKNOWN_INVARIANT_VIOLATION_ERROR ∧ e.message.isSome = true := by
  cases t with
  | Bool => simp [FatType.debug_print] at h
  | U8 => simp [FatType.debug_print] at h
  | U64 => simp [FatType.debug_print] at h
  | U128 => simp [FatType.debug_print] at h
  | Address => simp [FatType.debug_print] at h
  | Signer => simp [FatType.debug_print] at h
  | Vector ty =>
    cases heq : ty.debug_print with
    | ok txt => simp [FatType.debug_print, heq] at h
    | error e2 =>
      simp [FatType.debug_print, heq] at h
      exact h ▸ FatType.debug_print_err ty e2 heq
  | Struct s =>
    exact FatStructType.debug_print_err_struct s e (by simpa [FatType.debug_print] using h)
  | Reference ty =>
    cases heq : ty.debug_print with
    | ok txt => simp [FatType.debug_print, heq] at h
    | error e2 =>
      simp [FatType.debug_print, heq] at h
      exact h ▸ FatType.debug_print_err ty e2 heq
  | MutableReference ty =>
    cases heq : ty.debug_print with
    | ok txt => simp [FatType.debug_print, heq] at h
    | error e2 =>
      simp [FatType.debug_print, heq] at h
      exact h ▸ FatType.debug_print_err ty e2 heq
  | TyParam i =>
    simp [FatType.debug_print] at h
    simp [← h, PartialVMError.new, PartialVMError.with_message]
termination_by sizeOf t

theorem FatStructType.debug_print_err_struct (s : FatStructType) (e : PartialVMError)
    (h : s.debug_print = .error e) :
    e.major_status = .UNKNOWN_INVARIANT_VIOLATION_ERROR ∧ e.message.isSome = true := by
  cases s with
  | mk a m n r targs fields =>
    cases targs with
    | nil => simp [FatStructType.debug_print] at h
    | cons ty rest =>
      cases heq : ty.debug_print with
      | error e2 =>
        simp [FatStructType.debug_print, heq] at h
        exact h ▸ FatType.debug_print_err ty e2 heq
      | ok txt0 =>
        cases heq2 : debugPrintRest rest with
        | error e2 =>
          simp [FatStructType.debug_print, heq, heq2] at h
          exact h ▸ debugPrintRest_err rest e2 heq2
        | ok txtRest => simp [FatStructType.debug_print, heq, heq2] at h
termination_by sizeOf s

theorem debugPrintRest_err (ts : List FatType) (e : PartialVMError)
    (h : debugPrintRest ts = .error e) :
    e.major_status = .UNKNOWN_INVARIANT_VIOLATION_ERROR ∧ e.message.isSome = true := by
  cases ts with
  | nil => simp [debugPrintRest] at h
  | cons ty rest =>
    cases heq : ty.debug_print with
    | error e2 =>
      simp [debugPrintRest, heq] at h
      exact h ▸ FatType.debug_print_err ty e2 heq
    | ok txt =>
      cases heq2 : debugPrintRest rest with
      | error e2 =>
        simp [debugPrintRest, heq, heq2] at h
        exact h ▸ debugPrintRest_err rest e2 heq2
      | ok txtRest => simp [debugPrintRest, heq, heq2] at h
termination_by sizeOf ts
end

mutual
theorem FatType.tryIntoLayout_err (t : FatType) (e : PartialVMError)
    (h : t.tryIntoLayout = .error e) :
    e = PartialVMError.new .ABORT_TYPE_MISMATCH_ERROR := by
  cases t with
  | Bool => simp [FatType.tryIntoLayout] at h
  | U8 => simp [FatType.tryIntoLayout] at h
  | U64 => simp [FatType.tryIntoLayout] at h
  | U128 => simp [FatType.tryIntoLayout] at h
  | Address => simp [FatType.tryIntoLayout] at h
  | Signer => simp [FatType.tryIntoLayout] at h
  | Vector ty =>
    cases heq : ty.tryIntoLayout with
    | ok l => simp [FatType.tryIntoLayout, heq] at h
    | error e2 =>
      simp [FatType.tryIntoLayout, heq] at h
      exact h ▸ FatType.tryIntoLayout_err ty e2 heq
  | Struct s =>
    cases s with
    | mk a m n r targs fields =>
      cases heq : tryIntoLayoutList fields with
      | ok ls => simp [FatType.tryIntoLayout, heq] at h
      | error e2 =>
        simp [FatType.tryIntoLayout, heq] at h
        exact h ▸ tryIntoLayoutList_err fields e2 heq
  | Reference ty =>
    simp [FatType.tryIntoLayout] at h
    simp [← h]
  | MutableReference ty =>
    simp [FatType.tryIntoLayout] at h
    simp [← h]
  | TyParam i =>
    simp [FatType.tryIntoLayout] at h
    simp [← h]
termination_by sizeOf t

theorem tryIntoLayoutList_err (ts : List FatType) (e : PartialVMError)
    (h : tryIntoLayoutList ts = .error e) :
    e = PartialVMError.new .ABORT_TYPE_MISMATCH_ERROR := by
  cases ts with
  | nil => simp [tryIntoLayoutList] at h
  | cons t rest =>
    cases heq : t.tryIntoLayout with
    | error e2 =>
      simp [tryIntoLayoutList, heq] at h
      exact h ▸ FatType.tryIntoLayout_err t e2 heq
    | ok l =>
      cases heq2 : tryIntoLayoutList rest with
      | error e2 =>
        simp [tryIntoLayoutList, heq, heq2] at h
        exact h ▸ tryIntoLayoutList_err rest e2 heq2
      | ok ls => simp [tryIntoLayoutList, heq, heq2] at h
termination_by sizeOf ts
end

mutual
theorem FatType.layout_concrete_ok (t : FatType) (h : t.isConcrete = true) :
    ∃ kl, t.layout_and_kind_info = .ok kl := by
  cases t with
  | Bool => exact ⟨_, rfl⟩
  | U8 => exact ⟨_, rfl⟩
  | U64 => exact ⟨_, rfl⟩
  | U128 => exact ⟨_, rfl⟩
  | Address => exact ⟨_, rfl⟩
  | Signer => exact ⟨_, rfl⟩
  | Vector ty =>
    have h1 : ty.isConcrete = true := by simpa [FatType.isConcrete] using h
    obtain ⟨kl, hkl⟩ := FatType.layout_concrete_ok ty h1
    obtain ⟨k, l⟩ := kl
    exact ⟨(.Vector k.kind k, .Vector l), by simp [FatType.layout_and_kind_info, hkl]⟩
  | Struct s =>
    cases s with
    | mk a m n r targs fields =>
      have h2 : listConcrete fields = true := by
        simp [FatType.isConcrete, FatStructType.isConcrete] at h
        exact h.2
      obtain ⟨res, hres⟩ := layoutAndKindList_ok fields h2
      exact ⟨(.Struct (if r then .Resource else .Copyable) (res.map Prod.fst),
          .Struct (MoveStructLayout.new (res.map Prod.snd))),
        by simp [FatType.layout_and_kind_info,
          FatStructType.layout_and_kind_info, hres]⟩
  | Reference ty => simp [FatType.isConcrete] at h
  | MutableReference ty => simp [FatType.isConcrete] at h
  | TyParam i => simp [FatType.isConcrete] at h
termination_by sizeOf t

theorem layoutAndKindList_ok (ts : List FatType) (h : listConcrete ts = true) :
    ∃ res, layoutAndKindList ts = .ok res := by
  cases ts with
  | nil => exact ⟨[], rfl⟩
  | cons t rest =>
    have h1 : t.isConcrete = true := by simp [listConcrete] at h; exact h.1
    have h2 : listConcrete rest = true := by simp [listConcrete] at h; exact h.2
    obtain ⟨kl, hkl⟩ := FatType.layout_concrete_ok t h1
    obtain ⟨res, hres⟩ := layoutAndKindList_ok rest h2
    exact ⟨kl :: res, by simp [layoutAndKindList, hkl, hres]⟩
termination_by sizeOf ts
end

theorem layoutAndKindList_length (ts : List FatType)
    (res : List (MoveKindInfo × MoveTypeLayout)) (h : layoutAndKindList ts = .ok res) :
    res.length = ts.length := by
  induction ts generalizing res with
  | nil => simp [layoutAndKindList] at h; simp [← h]
  | cons t rest ih =>
    cases heq : t.layout_and_kind_info with
    | error e => simp [layoutAndKindList, heq] at h
    | ok kl =>
      cases heq2 : layoutAndKindList rest with
      | error e => simp [layoutAndKindList, heq, heq2] at h
      | ok kls =>
        simp [layoutAndKindList, heq, heq2] at h
        simp [← h, ih kls heq2]

theorem layoutAndKindList_get (ts : List FatType)
    (res : List (MoveKindInfo × MoveTypeLayout)) (h : layoutAndKindList ts = .ok res)
    (i : Nat) (h1 : i < ts.length) (h2 : i < res.length) :
    (ts.get ⟨i, h1⟩).layout_and_kind_info = .ok (res.get ⟨i, h2⟩) := by
  induction ts generalizing res i with
  | nil => simp at h1
  | cons t rest ih =>
    cases heq : t.layout_and_kind_info with
    | error e => simp [layoutAndKindList, heq] at h
    | ok kl =>
      cases heq2 : layoutAndKindList rest with
      | error e => simp [layoutAndKindList, heq, heq2] at h
      | ok kls =>
        simp [layoutAndKindList, heq, heq2] at h
        subst h
        cases i with
        | zero => simpa using heq
        | succ j =>
          have hj1 : j < rest.length := by simpa using h1
          have hj2 : j < kls.length := by simpa using h2
          simpa using ih kls heq2 j hj1 hj2

mutual
theorem FatType.layout_agree (t : FatType) (h : t.isConcrete = true) :
    ∃ k l, t.layout_and_kind_info = .ok (k, l) ∧ t.tryIntoLayout = .ok l := by
  cases t with
  | Bool => exact ⟨_, _, rfl, rfl⟩
  | U8 => exact ⟨_, _, rfl, rfl⟩
  | U64 => exact ⟨_, _, rfl, rfl⟩
  | U128 => exact ⟨_, _, rfl, rfl⟩
  | Address => exact ⟨_, _, rfl, rfl⟩
  | Signer => exact ⟨_, _, rfl, rfl⟩
  | Vector ty =>
    have h1 : ty.isConcrete = true := by simpa [FatType.isConcrete] using h
    obtain ⟨k, l, hk, hl⟩ := FatType.layout_agree ty h1
    exact ⟨.Vector k.kind k, .Vector l,
      by simp [FatType.layout_and_kind_info, hk],
      by simp [FatType.tryIntoLayout, hl]⟩
  | Struct s =>
    cases s with
    | mk a m n r targs fields =>
      have h2 : listConcrete fields = true := by
        simp [FatType.isConcrete, FatStructType.isConcrete] at h
        exact h.2
      obtain ⟨res, hres, hlist⟩ := layoutAndKindList_agree fields h2
      exact ⟨.Struct (if r then .Resource else .Copyable) (res.map Prod.fst),
        .Struct (res.map Prod.snd),
        by simp [FatType.layout_and_kind_info, FatStructType.layout_and_kind_info,
          hres, MoveStructLayout.new],
        by simp [FatType.tryIntoLayout, hlist, MoveStructLayout.new]⟩
  | Reference ty => simp [FatType.isConcrete] at h
  | MutableReference ty => simp [FatType.isConcrete] at h
  | TyParam i => simp [FatType.isConcrete] at h
termination_by sizeOf t

theorem layoutAndKindList_agree (ts : List FatType) (h : listConcrete ts = true) :
    ∃ res, layoutAndKindList ts = .ok res ∧
      tryIntoLayoutList ts = .ok (res.map Prod.snd) := by
  cases ts with
  | nil => exact ⟨[], rfl, rfl⟩
  | cons t rest =>
    have h1 : t.isConcrete = true := by simp [listConcrete] at h; exact h.1
    have h2 : listConcrete rest = true := by simp [listConcrete] at h; exact h.2
    obtain ⟨k, l, hk, hl⟩ := FatType.layout_agree t h1
    obtain ⟨res, hres, hlist⟩ := layoutAndKindList_agree rest h2
    exact ⟨(k, l) :: res,
      by simp [layoutAndKindList, hk, hres],
      by simp [tryIntoLayoutList, hl, hlist]⟩
termination_by sizeOf ts
end

mutual
theorem FatType.type_tag_concrete (t : FatType) (h : t.isConcrete = true) :
    ∃ tag, t.type_tag = .ok tag := by
  cases t with
  | Bool => exact ⟨_, rfl⟩
  | U8 => exact ⟨_, rfl⟩
  | U64 => exact ⟨_, rfl⟩
  | U128 => exact ⟨_, rfl⟩
  | Address => exact ⟨_, rfl⟩
  | Signer => exact ⟨_, rfl⟩
  | Vector ty =>
    have h1 : ty.isConcrete = true := by simpa [FatType.isConcrete] using h
    obtain ⟨tag, htag⟩ := FatType.type_tag_concrete ty h1
    exact ⟨.Vector tag, by simp [FatType.type_tag, htag]⟩
  | Struct s =>
    have h1 : listConcrete s.ty_args = true := by
      cases s with
      | mk a m n r targs fields =>
        simp [FatType.isConcrete, FatStructType.isConcrete, FatStructType.ty_args] at h ⊢
        exact h.1
    obtain ⟨tags, htags, hst⟩ := FatStructType.struct_tag_concrete s h1
    exact ⟨.Struct (.mk s.address s.module s.name tags),
      by simp [FatType.type_tag, hst]⟩
  | Reference ty => simp [FatType.isConcrete] at h
  | MutableReference ty => simp [FatType.isConcrete] at h
  | TyParam i => simp [FatType.isConcrete] at h
termination_by sizeOf t

theorem FatStructType.struct_tag_concrete (s : FatStructType)
    (h : listConcrete s.ty_args = true) :
    ∃ tags, typeTagList s.ty_args = .ok tags ∧
      s.struct_tag = .ok (.mk s.address s.module s.name tags) := by
  cases s with
  | mk a m n r targs fields =>
    have h1 : listConcrete targs = true := by simpa [FatStructType.ty_args] using h
    obtain ⟨tags, htags⟩ := typeTagList_concrete targs h1
    exact ⟨tags, by simpa [FatStructType.ty_args] using htags,
      by simp [FatStructType.struct_tag, FatStructType.address, FatStructType.module,
        FatStructType.name, htags]⟩
termination_by sizeOf s

theorem typeTagList_concrete (ts : List FatType) (h : listConcrete ts = true) :
    ∃ tags, typeTagList ts = .ok tags := by
  cases ts with
  | nil => exact ⟨[], rfl⟩
  | cons t rest =>
    have h1 : t.isConcrete = true := by simp [listConcrete] at h; exact h.1
    have h2 : listConcrete rest = true := by simp [listConcrete] at h; exact h.2
    obtain ⟨tag, htag⟩ := FatType.type_tag_concrete t h1
    obtain ⟨tags, htags⟩ := typeTagList_concrete rest h2
    exact ⟨tag :: tags, by simp [typeTagList, htag, htags]⟩
termination_by sizeOf ts
end

theorem substList_get (ts ty_args : List FatType) (res : List FatType)
    (h : substList ts ty_args = .ok res) (i : Nat) (x : FatType)
    (hx : ts[i]? = some x) : ∃ y, res[i]? = some y ∧ x.subst ty_args = .ok y := by
  induction ts generalizing res i with
  | nil => simp at hx
  | cons t rest ih =>
    cases heq : t.subst ty_args with
    | error e => simp [substList, heq] at h
    | ok t2 =>
      cases heq2 : substList rest ty_args with
      | error e => simp [substList, heq, heq2] at h
      | ok rest2 =>
        simp [substList, heq, heq2] at h
        subst h
        cases i with
        | zero =>
          simp at hx
          subst hx
          exact ⟨t2, by simp, heq⟩
        | succ j =>
          simp at hx
          obtain ⟨y, hy, hsub⟩ := ih rest2 heq2 j hx
          exact ⟨y, by simpa using hy, hsub⟩

mutual
theorem FatType.subst_combine (t : FatType) (a b a2 : List FatType)
    (hcomb : substList a b = .ok a2) (r : FatType)
    (h : t.subst a = .ok r) (hr : r.hasTyParam = false) :
    t.subst a2 = .ok r := by
  cases t with
  | Bool => simpa [FatType.subst] using h
  | U8 => simpa [FatType.subst] using h
  | U64 => simpa [FatType.subst] using h
  | U128 => simpa [FatType.subst] using h
  | Address => simpa [FatType.subst] using h
  | Signer => simpa [FatType.subst] using h
  | Vector ty =>
    cases heq : ty.subst a with
    | error e => simp [FatType.subst, heq] at h
    | ok ty2 =>
      simp [FatType.subst, heq] at h
      subst h
      have hr2 : ty2.hasTyParam = false := by simpa [FatType.hasTyParam] using hr
      simp [FatType.subst, FatType.subst_combine ty a b a2 hcomb ty2 heq hr2]
  | Reference ty =>
    cases heq : ty.subst a with
    | error e => simp [FatType.subst, heq] at h
    | ok ty2 =>
      simp [FatType.subst, heq] at h
      subst h
      have hr2 : ty2.hasTyParam = false := by simpa [FatType.hasTyParam] using hr
      simp [FatType.subst, FatType.subst_combine ty a b a2 hcomb ty2 heq hr2]
  | MutableReference ty =>
    cases heq : ty.subst a with
    | error e => simp [FatType.subst, heq] at h
    | ok ty2 =>
      simp [FatType.subst, heq] at h
      subst h
      have hr2 : ty2.hasTyParam = false := by simpa [FatType.hasTyParam] using hr
      simp [FatType.subst, FatType.subst_combine ty a b a2 hcomb ty2 heq hr2]
  | Struct s =>
    cases heq : s.subst a with
    | error e => simp [FatType.subst, heq] at h
    | ok s2 =>
      simp [FatType.subst, heq] at h
      subst h
      have hr2 : s2.hasTyParam = false := by simpa [FatType.hasTyParam] using hr
      simp [FatType.subst, FatStructType.subst_combine_struct s a b a2 hcomb s2 heq hr2]
  | TyParam i =>
    cases hg : a[i]? with
    | none => simp [FatType.subst, hg] at h
    | some x =>
      simp [FatType.subst, hg] at h
      subst h
      obtain ⟨y, hy, hsub⟩ := substList_get a b a2 hcomb i x hg
      have hyx : y = x := by
        have hid : x.subst b = .ok x := FatType.subst_id x b hr
        rw [hid] at hsub
        exact ((Except.ok.injEq _ _).mp hsub).symm
      subst hyx
      simp [FatType.subst, hy]
termination_by sizeOf t

theorem FatStructType.subst_combine_struct (s : FatStructType) (a b a2 : List FatType)
    (hcomb : substList a b = .ok a2) (sr : FatStructType)
    (h : s.subst a = .ok sr) (hr : sr.hasTyParam = false) :
    s.subst a2 = .ok sr := by
  cases s with
  | mk ad m n r targs fields =>
    cases heq : substList targs a with
    | error e => simp [FatStructType.subst, heq] at h
    | ok targs2 =>
      cases heq2 : substList fields a with
      | error e => simp [FatStructType.subst, heq, heq2] at h
      | ok fields2 =>
        simp [FatStructType.subst, heq, heq2] at h
        subst h
        have hr1 : listHasTyParam targs2 = false := by
          simp [FatStructType.hasTyParam] at hr
          exact hr.1
        have hr2 : listHasTyParam fields2 = false := by
          simp [FatStructType.hasTyParam] at hr
          exact hr.2
        simp [FatStructType.subst,
          substList_combine targs a b a2 hcomb targs2 heq hr1,
          substList_combine fields a b a2 hcomb fields2 heq2 hr2]
termination_by sizeOf s

theorem substList_combine (ts : List FatType) (a b a2 : List FatType)
    (hcomb : substList a b = .ok a2) (rs : List FatType)
    (h : substList ts a = .ok rs) (hr : listHasTyParam rs = false) :
    substList ts a2 = .ok rs := by
  cases ts with
  | nil => simpa [substList] using h
  | cons t rest =>
    cases heq : t.subst a with
    | error e => simp [substList, heq] at h
    | ok t2 =>
      cases heq2 : substList rest a with
      | error e => simp [substList, heq, heq2] at h
      | ok rest2 =>
        simp [substList, heq, heq2] at h
        subst h
        have hr1 : t2.hasTyParam = false := by
          simp [listHasTyParam] at hr
          exact hr.1
        have hr2 : listHasTyParam rest2 = false := by
          simp [listHasTyParam] at hr
          exact hr.2
        simp [substList, FatType.subst_combine t a b a2 hcomb t2 heq hr1,
          substList_combine rest a b a2 hcomb rest2 heq2 hr2]
termination_by sizeOf ts
end

theorem FatType.type_tag_err_of_bad (t : FatType)
    (h : isBadNode (stripVectors t) = true) :
    ∃ e, t.type_tag = .error e ∧
      e.major_status = .UNKNOWN_INVARIANT_VIOLATION_ERROR := by
  cases t with
  | Bool => simp [stripVectors, isBadNode] at h
  | U8 => simp [stripVectors, isBadNode] at h
  | U64 => simp [stripVectors, isBadNode] at h
  | U128 => simp [stripVectors, isBadNode] at h
  | Address => simp [stripVectors, isBadNode] at h
  | Signer => simp [stripVectors, isBadNode] at h
  | Vector ty =>
    have h1 : isBadNode (stripVectors ty) = true := by simpa [stripVectors] using h
    obtain ⟨e, he, hs⟩ := FatType.type_tag_err_of_bad ty h1
    exact ⟨e, by simp [FatType.type_tag, he], hs⟩
  | Struct s => simp [stripVectors, isBadNode] at h
  | Reference ty => exact ⟨_, rfl, rfl⟩
  | MutableReference ty => exact ⟨_, rfl, rfl⟩
  | TyParam i => exact ⟨_, rfl, rfl⟩
termination_by sizeOf t

theorem FatType.layout_err_of_bad (t : FatType)
    (h : isBadNode (stripVectors t) = true) :
    ∃ e, t.layout_and_kind_info = .error e ∧
      e.major_status = .UNKNOWN_INVARIANT_VIOLATION_ERROR := by
  cases t with
  | Bool => simp [stripVectors, isBadNode] at h
  | U8 => simp [stripVectors, isBadNode] at h
  | U64 => simp [stripVectors, isBadNode] at h
  | U128 => simp [stripVectors, isBadNode] at h
  | Address => simp [stripVectors, isBadNode] at h
  | Signer => simp [stripVectors, isBadNode] at h
  | Vector ty =>
    have h1 : isBadNode (stripVectors ty) = true := by simpa [stripVectors] using h
    obtain ⟨e, he, hs⟩ := FatType.layout_err_of_bad ty h1
    exact ⟨e, by simp [FatType.layout_and_kind_info, he], hs⟩
  | Struct s => simp [stripVectors, isBadNode] at h
  | Reference ty => exact ⟨_, rfl, rfl⟩
  | MutableReference ty => exact ⟨_, rfl, rfl⟩
  | TyParam i => exact ⟨_, rfl, rfl⟩
termination_by sizeOf t

theorem FatType.is_resource_err_of_typaram (t : FatType)
    (h : isTyParamNode (stripVectors t) = true) :
    ∃ e, t.is_resource = .error e ∧
      e.major_status = .UNKNOWN_INVARIANT_VIOLATION_ERROR := by
  cases t with
  | Bool => simp [stripVectors, isTyParamNode] at h
  | U8 => simp [stripVectors, isTyParamNode] at h
  | U64 => simp [stripVectors, isTyParamNode] at h
  | U128 => simp [stripVectors, isTyParamNode] at h
  | Address => simp [stripVectors, isTyParamNode] at h
  | Signer => simp [stripVectors, isTyParamNode] at h
  | Vector ty =>
    have h1 : isTyParamNode (stripVectors ty) = true := by simpa [stripVectors] using h
    obtain ⟨e, he, hs⟩ := FatType.is_resource_err_of_typaram ty h1
    exact ⟨e, by simpa [FatType.is_resource] using he, hs⟩
  | Struct s => simp [stripVectors, isTyParamNode] at h
  | Reference ty => simp [stripVectors, isTyParamNode] at h
  | MutableReference ty => simp [stripVectors, isTyParamNode] at h
  | TyParam i => exact ⟨_, rfl, rfl⟩
termination_by sizeOf t

theorem FatType.debug_print_err_of_typaram (t : FatType)
    (h : isTyParamNode (stripVectors t) = true) :
    ∃ e, t.debug_print = .error e ∧
      e.major_status = .UNKNOWN_INVARIANT_VIOLATION_ERROR := by
  cases t with
  | Bool => simp [stripVectors, isTyParamNode] at h
  | U8 => simp [stripVectors, isTyParamNode] at h
  | U64 => simp [stripVectors, isTyParamNode] at h
  | U128 => simp [stripVectors, isTyParamNode] at h
  | Address => simp [stripVectors, isTyParamNode] at h
  | Signer => simp [stripVectors, isTyParamNode] at h
  | Vector ty =>
    have h1 : isTyParamNode (stripVectors ty) = true := by simpa [stripVectors] using h
    obtain ⟨e, he, hs⟩ := FatType.debug_print_err_of_typaram ty h1
    exact ⟨e, by simp [FatType.debug_print, he], hs⟩
  | Struct s => simp [stripVectors, isTyParamNode] at h
  | Reference ty => simp [stripVectors, isTyParamNode] at h
  | MutableReference ty => simp [stripVectors, isTyParamNode] at h
  | TyParam i => exact ⟨_, rfl, rfl⟩
termination_by sizeOf t

theorem layoutAndKindList_err_of_mem (ts : List FatType) (f : FatType)
    (hm : f ∈ ts) (e : PartialVMError) (hf : f.layout_and_kind_info = .error e) :
    ∃ e2, layoutAndKindList ts = .error e2 := by
  induction ts with
  | nil => simp at hm
  | cons t rest ih =>
    cases heq : t.layout_and_kind_info with
    | error e2 => exact ⟨e2, by simp [layoutAndKindList, heq]⟩
    | ok kl =>
      rcases List.mem_cons.mp hm with hft | hmem
      · subst hft
        rw [hf] at heq
        exact absurd heq (by simp)
      · obtain ⟨e2, he2⟩ := ih hmem
        exact ⟨e2, by simp [layoutAndKindList, heq, he2]⟩

theorem FatStructType.tryIntoStructLayout_err (s : FatStructType) (e : PartialVMError)
    (h : s.tryIntoStructLayout = .error e) :
    e = PartialVMError.new .ABORT_TYPE_MISMATCH_ERROR := by
  cases heq : tryIntoLayoutList s.layout with
  | error e2 =>
    simp [FatStructType.tryIntoStructLayout, heq] at h
    exact h ▸ tryIntoLayoutList_err s.layout e2 heq
  | ok ls => simp [FatStructType.tryIntoStructLayout, heq] at h

/-- C1 (amended): `type_tag` and `layout_and_kind_info` fail with the
invariant-violation status on a `TyParam`, `Reference` or `MutableReference`,
also nested under vector elements; `layout_and_kind_info` also fails when such
a node sits inside a struct field; `is_resource` and `debug_print` fail with
the invariant-violation status on a `TyParam` (also nested under vectors) —
but not on references, which they classify and render. -/
theorem claim1_amended (t : FatType) (s : FatStructType) (f : FatType) :
    (isBadNode (stripVectors t) = true →
      (∃ e, t.type_tag = .error e ∧
        e.major_status = .UNKNOWN_INVARIANT_VIOLATION_ERROR) ∧
      (∃ e, t.layout_and_kind_info = .error e ∧
        e.major_status = .UNKNOWN_INVARIANT_VIOLATION_ERROR)) ∧
    (isTyParamNode (stripVectors t) = true →
      (∃ e, t.is_resource = .error e ∧
        e.major_status = .UNKNOWN_INVARIANT_VIOLATION_ERROR) ∧
      (∃ e, t.debug_print = .error e ∧
        e.major_status = .UNKNOWN_INVARIANT_VIOLATION_ERROR)) ∧
    (f ∈ s.layout → isBadNode (stripVectors f) = true →
      ∃ e, (FatType.Struct s).layout_and_kind_info = .error e ∧
        e.major_status = .UNKNOWN_INVARIANT_VIOLATION_ERROR) := by
  refine ⟨fun h => ⟨FatType.type_tag_err_of_bad t h, FatType.layout_err_of_bad t h⟩,
    fun h => ⟨FatType.is_resource_err_of_typaram t h,
      FatType.debug_print_err_of_typaram t h⟩,
    fun hm hb => ?_⟩
  cases s with
  | mk a m n r targs fields =>
    have hm2 : f ∈ fields := by simpa [FatStructType.layout] using hm
    obtain ⟨e, he, _⟩ := FatType.layout_err_of_bad f hb
    obtain ⟨e2, he2⟩ := layoutAndKindList_err_of_mem fields f hm2 e he
    exact ⟨e2,
      by simp [FatType.layout_and_kind_info, FatStructType.layout_and_kind_info, he2],
      (layoutAndKindList_err fields e2 he2).1⟩

/-- C1 witness: the amended theorem applied to `Vector(TyParam 0)` and to a
struct with a `Reference` field. -/
theorem claim1_amended_witness :
    (∃ e, (FatType.Vector (.TyParam 0)).type_tag = .error e ∧
      e.major_status = .UNKNOWN_INVARIANT_VIOLATION_ERROR) ∧
    (∃ e, (FatType.Vector (.TyParam 0)).is_resource = .error e ∧
      e.major_status = .UNKNOWN_INVARIANT_VIOLATION_ERROR) ∧
    (∃ e, (FatType.Struct
        (.mk 0 "M" "S" false [] [.Reference .Bool])).layout_and_kind_info = .error e ∧
      e.major_status = .UNKNOWN_INVARIANT_VIOLATION_ERROR) := by
  have h := claim1_amended (.Vector (.TyParam 0))
    (.mk 0 "M" "S" false [] [.Reference .Bool]) (.Reference .Bool)
  exact ⟨(h.1 rfl).1, (h.2.1 rfl).1,
    h.2.2 (by simp [FatStructType.layout]) rfl⟩

/-- C1 counterexample: on `Reference(Bool)` — a type containing a `Reference`
node — `is_resource` and `format` return values, not the invariant-violation
error the claim demands of all four operations. -/
theorem claim1_counterexample :
    FatType.is_resource (.Reference .Bool) = .ok false ∧
    FatType.debug_print (.Reference .Bool) = .ok "&bool" := ⟨rfl, rfl⟩

/-- C2 (amended): substitution, type-tag derivation, layout/kind derivation,
resource classification and formatting fail only with the invariant-violation
status code and always carry a message, at the type level and the struct
level; the layout bridge instead fails only with `ABORT_TYPE_MISMATCH_ERROR`
and no message. -/
theorem claim2_amended (t : FatType) (s : FatStructType) (args : List FatType)
    (e : PartialVMError) :
    (t.subst args = .error e →
      e.major_status = .UNKNOWN_INVARIANT_VIOLATION_ERROR ∧ e.message.isSome = true) ∧
    (t.type_tag = .error e →
      e.major_status = .UNKNOWN_INVARIANT_VIOLATION_ERROR ∧ e.message.isSome = true) ∧
    (t.layout_and_kind_info = .error e →
      e.major_status = .UNKNOWN_INVARIANT_VIOLATION_ERROR ∧ e.message.isSome = true) ∧
    (t.is_resource = .error e →
      e.major_status = .UNKNOWN_INVARIANT_VIOLATION_ERROR ∧ e.message.isSome = true) ∧
    (t.debug_print = .error e →
      e.major_status = .UNKNOWN_INVARIANT_VIOLATION_ERROR ∧ e.message.isSome = true) ∧
    (s.subst args = .error e →
      e.major_status = .UNKNOWN_INVARIANT_VIOLATION_ERROR ∧ e.message.isSome = true) ∧
    (s.struct_tag = .error e →
      e.major_status = .UNKNOWN_INVARIANT_VIOLATION_ERROR ∧ e.message.isSome = true) ∧
    (s.layout_and_kind_info = .error e →
      e.major_status = .UNKNOWN_INVARIANT_VIOLATION_ERROR ∧ e.message.isSome = true) ∧
    (s.debug_print = .error e →
      e.major_status = .UNKNOWN_INVARIANT_VIOLATION_ERROR ∧ e.message.isSome = true) ∧
    (t.tryIntoLayout = .error e → e = PartialVMError.new .ABORT_TYPE_MISMATCH_ERROR) ∧
    (s.tryIntoStructLayout = .error e →
      e = PartialVMError.new .ABORT_TYPE_MISMATCH_ERROR) :=
  ⟨FatType.subst_err t args e, FatType.type_tag_err t e,
    FatType.layout_and_kind_info_err t e, FatType.is_resource_err t e,
    FatType.debug_print_err t e, FatStructType.subst_err_struct s args e,
    FatStructType.struct_tag_err s e, FatStructType.layout_and_kind_info_err_struct s e,
    FatStructType.debug_print_err_struct s e, FatType.tryIntoLayout_err t e,
    FatStructType.tryIntoStructLayout_err s e⟩

/-- C2 witness: the amended theorem applied to the out-of-bounds substitution
error at `TyParam 0` with no arguments. -/
theorem claim2_amended_witness :
    (PartialVMError.mk .UNKNOWN_INVARIANT_VIOLATION_ERROR
        (some "fat type substitution failed: index out of bounds -- len 0 got 0")).major_status
      = .UNKNOWN_INVARIANT_VIOLATION_ERROR ∧
    (PartialVMError.mk .UNKNOWN_INVARIANT_VIOLATION_ERROR
        (some "fat type substitution failed: index out of bounds -- len 0 got 0")).message.isSome
      = true :=
  (claim2_amended (.TyParam 0) (.mk 0 "M" "S" false [] []) []
    (PartialVMError.mk .UNKNOWN_INVARIANT_VIOLATION_ERROR
      (some "fat type substitution failed: index out of bounds -- len 0 got 0"))).1 rfl

/-- C2 counterexample: the layout bridge on `TyParam 0` returns an error whose
status code is `ABORT_TYPE_MISMATCH_ERROR`, not the invariant violation, and
with no message. -/
theorem claim2_counterexample :
    (FatType.TyParam 0).tryIntoLayout =
      .error (PartialVMError.new .ABORT_TYPE_MISMATCH_ERROR) ∧
    (PartialVMError.new .ABORT_TYPE_MISMATCH_ERROR).major_status ≠
      .UNKNOWN_INVARIANT_VIOLATION_ERROR ∧
    (PartialVMError.new .ABORT_TYPE_MISMATCH_ERROR).message = none :=
  ⟨rfl, by decide, rfl⟩

/-- C3: on every concrete type (no `TyParam`, `Reference` or
`MutableReference` anywhere) the layout produced by the layout bridge is
structurally identical to the layout component of `layout_and_kind_info`. -/
theorem claim3_layout_bridge_agreement (t : FatType) (h : t.isConcrete = true) :
    ∃ k l, t.layout_and_kind_info = .ok (k, l) ∧ t.tryIntoLayout = .ok l :=
  FatType.layout_agree t h

/-- C3 witness: the agreement at a concrete struct containing a vector. -/
theorem claim3_witness :
    ∃ k l, (FatType.Struct
        (.mk 0 "M" "S" true [] [.U64, .Vector .Bool])).layout_and_kind_info = .ok (k, l) ∧
      (FatType.Struct (.mk 0 "M" "S" true [] [.U64, .Vector .Bool])).tryIntoLayout = .ok l :=
  claim3_layout_bridge_agreement (.Struct (.mk 0 "M" "S" true [] [.U64, .Vector .Bool])) rfl

/-- C4: a struct tag is built from the descriptor's address, module and name
plus the tags of its type arguments only; two descriptors agreeing on those
fields have equal tags no matter their fields. -/
theorem claim4_struct_tag_ignores_fields (s1 s2 : FatStructType) :
    (∀ tags, typeTagList s1.ty_args = .ok tags →
      s1.struct_tag = .ok (.mk s1.address s1.module s1.name tags)) ∧
    (s1.address = s2.address → s1.module = s2.module → s1.name = s2.name →
      s1.ty_args = s2.ty_args → s1.struct_tag = s2.struct_tag) := by
  constructor
  · intro tags htags
    cases s1 with
    | mk a m n r targs fields =>
      simp [FatStructType.ty_args] at htags
      simp [FatStructType.struct_tag, FatStructType.address, FatStructType.module,
        FatStructType.name, htags]
  · intro h1 h2 h3 h4
    cases s1 with
    | mk a m n r targs fields =>
      cases s2 with
      | mk a2 m2 n2 r2 targs2 fields2 =>
        simp [FatStructType.address, FatStructType.module, FatStructType.name,
          FatStructType.ty_args] at h1 h2 h3 h4
        subst h1; subst h2; subst h3; subst h4
        rfl

/-- C4 witness: two descriptors equal except for the fields sequence have
equal struct tags. -/
theorem claim4_witness :
    (FatStructType.mk 0 "M" "S" true [.U64] [.Bool]).struct_tag =
      (FatStructType.mk 0 "M" "S" true [.U64] [.U8, .Address]).struct_tag :=
  (claim4_struct_tag_ignores_fields (.mk 0 "M" "S" true [.U64] [.Bool])
    (.mk 0 "M" "S" true [.U64] [.U8, .Address])).2 rfl rfl rfl rfl

/-- C5: on a struct whose fields are all concrete, `layout_and_kind_info`
returns the declared kind (`Resource` iff the flag is set), the per-field
kinds each derived from the field's own type, and the ordered aggregate of
the per-field layouts. -/
theorem claim5_struct_layout_and_kind (s : FatStructType)
    (h : listConcrete s.layout = true) :
    ∃ res, layoutAndKindList s.layout = .ok res ∧
      s.layout_and_kind_info = .ok
        ((if s.is_resource then .Resource else .Copyable, res.map Prod.fst),
          MoveStructLayout.new (res.map Prod.snd)) ∧
      res.length = s.layout.length ∧
      ∀ (i : Nat) (h1 : i < s.layout.length) (h2 : i < res.length),
        (s.layout.get ⟨i, h1⟩).layout_and_kind_info = .ok (res.get ⟨i, h2⟩) := by
  cases s with
  | mk a m n r targs fields =>
    have hc : listConcrete fields = true := by simpa [FatStructType.layout] using h
    obtain ⟨res, hres⟩ := layoutAndKindList_ok fields hc
    refine ⟨res, by simpa [FatStructType.layout] using hres, ?_, ?_, ?_⟩
    · simp [FatStructType.layout_and_kind_info, FatStructType.is_resource, hres]
    · simpa [FatStructType.layout] using layoutAndKindList_length fields res hres
    · intro i h1 h2
      exact layoutAndKindList_get fields res hres i
        (by simpa [FatStructType.layout] using h1) h2

/-- C5 witness: the theorem applied to a resource struct with two concrete
fields. -/
theorem claim5_witness :
    ∃ res, layoutAndKindList (FatStructType.mk 0 "M" "S" true [] [.U64, .Bool]).layout
        = .ok res ∧
      (FatStructType.mk 0 "M" "S" true [] [.U64, .Bool]).layout_and_kind_info = .ok
        ((if (FatStructType.mk 0 "M" "S" true [] [.U64, .Bool]).is_resource
            then .Resource else .Copyable, res.map Prod.fst),
          MoveStructLayout.new (res.map Prod.snd)) ∧
      res.length = (FatStructType.mk 0 "M" "S" true [] [.U64, .Bool]).layout.length ∧
      ∀ (i : Nat) (h1 : i < (FatStructType.mk 0 "M" "S" true [] [.U64, .Bool]).layout.length)
        (h2 : i < res.length),
        ((FatStructType.mk 0 "M" "S" true [] [.U64, .Bool]).layout.get
          ⟨i, h1⟩).layout_and_kind_info = .ok (res.get ⟨i, h2⟩) :=
  claim5_struct_layout_and_kind (.mk 0 "M" "S" true [] [.U64, .Bool]) rfl

/-- C6: the resource classifier returns `false` on `Bool, U8, U64, U128,
Address` and on references, `true` on `Signer`, the element's classification
on vectors, and the declared flag on structs without inspecting fields; in
particular a declared-resource struct and a vector of it classify `Resource`
while `Vector(U64)` classifies `Copyable`. -/
theorem claim6_is_resource_cases (t : FatType) (s : FatStructType) :
    FatType.is_resource .Bool = .ok false ∧
    FatType.is_resource .U8 = .ok false ∧
    FatType.is_resource .U64 = .ok false ∧
    FatType.is_resource .U128 = .ok false ∧
    FatType.is_resource .Address = .ok false ∧
    (FatType.Reference t).is_resource = .ok false ∧
    (FatType.MutableReference t).is_resource = .ok false ∧
    FatType.is_resource .Signer = .ok true ∧
    (FatType.Vector t).is_resource = t.is_resource ∧
    (FatType.Struct s).is_resource = .ok s.is_resource ∧
    (s.is_resource = true →
      (FatType.Struct s).is_resource = .ok true ∧
      (FatType.Vector (.Struct s)).is_resource = .ok true) ∧
    (FatType.Vector .U64).is_resource = .ok false := by
  refine ⟨rfl, rfl, rfl, rfl, rfl, rfl, rfl, rfl, rfl, rfl, fun h => ⟨?_, ?_⟩, rfl⟩
  · simp [FatType.is_resource, h]
  · simp [FatType.is_resource, h]

/-- C6 witness: a resource struct with a single copyable field classifies
`Resource`, and so does a vector of it. -/
theorem claim6_witness :
    (FatType.Struct (.mk 0 "M" "Coin" true [] [.U64])).is_resource = .ok true ∧
    (FatType.Vector (.Struct (.mk 0 "M" "Coin" true [] [.U64]))).is_resource = .ok true :=
  (claim6_is_resource_cases .Bool (.mk 0 "M" "Coin" true [] [.U64])).2.2.2.2.2.2.2.2.2.2.1 rfl

/-- C7: substituting into a type containing no `TyParam` node returns the
identical structure, for every argument list. -/
theorem claim7_subst_identity (t : FatType) (args : List FatType)
    (h : t.hasTyParam = false) : t.subst args = .ok t :=
  FatType.subst_id t args h

/-- C7 witness: the identity at a struct with a reference field. -/
theorem claim7_witness :
    (FatType.Struct (.mk 0 "M" "S" false [.U64] [.Reference .Bool])).subst [.U8, .U128]
      = .ok (.Struct (.mk 0 "M" "S" false [.U64] [.Reference .Bool])) :=
  claim7_subst_identity (.Struct (.mk 0 "M" "S" false [.U64] [.Reference .Bool]))
    [.U8, .U128] rfl

/-- C8: when the first substitution pass succeeds and leaves no `TyParam`,
a second pass is the identity, and one pass with the combined resolution
(each entry of the first argument list resolved under the second) produces
the same result. -/
theorem claim8_subst_composition (t : FatType) (a b a2 : List FatType) (r : FatType)
    (h1 : t.subst a = .ok r) (h2 : r.hasTyParam = false)
    (h3 : substList a b = .ok a2) :
    r.subst b = .ok r ∧ t.subst a2 = .ok r :=
  ⟨FatType.subst_id r b h2, FatType.subst_combine t a b a2 h3 r h1 h2⟩

/-- C8 witness: composing `[TyParam 0 ↦ U64]` with a second pass. -/
theorem claim8_witness :
    (FatType.Vector (.TyParam 0)).subst [.U64] = .ok (.Vector .U64) ∧
    (FatType.Vector .U64).subst [.Bool] = .ok (.Vector .U64) ∧
    (FatType.Vector (.TyParam 0)).subst [.U64] = .ok (.Vector .U64) := by
  have h := claim8_subst_composition (.Vector (.TyParam 0)) [.U64] [.Bool] [.U64]
    (.Vector .U64) rfl rfl rfl
  exact ⟨rfl, h.1, h.2⟩

/-- C9: substitution on `TyParam i` returns the `i`-th argument when `i` is
in bounds, and otherwise fails with the invariant-violation error whose
message reports the argument count and the offending index. -/
theorem claim9_subst_typaram (i : Nat) (args : List FatType) :
    (∀ h : i < args.length, (FatType.TyParam i).subst args = .ok (args.get ⟨i, h⟩)) ∧
    (args.length ≤ i → (FatType.TyParam i).subst args =
      .error ⟨.UNKNOWN_INVARIANT_VIOLATION_ERROR,
        some ("fat type substitution failed: index out of bounds -- len " ++
          toString args.length ++ " got " ++ toString i)⟩) := by
  constructor
  · intro h
    simp [FatType.subst, List.getElem?_eq_getElem h]
  · intro h
    simp [FatType.subst, List.getElem?_eq_none h, PartialVMError.new,
      PartialVMError.with_message]

/-- C9 witness: in bounds at index 1 of a two-element list, out of bounds at
index 2 of the same list. -/
theorem claim9_witness :
    (FatType.TyParam 1).subst [.Bool, .U64] = .ok .U64 ∧
    (FatType.TyParam 2).subst [.Bool, .U64] =
      .error ⟨.UNKNOWN_INVARIANT_VIOLATION_ERROR,
        some ("fat type substitution failed: index out of bounds -- len " ++
          toString (2 : Nat) ++ " got " ++ toString (2 : Nat))⟩ := by
  refine ⟨?_, ?_⟩
  · exact (claim9_subst_typaram 1 [.Bool, .U64]).1 (by decide)
  · exact (claim9_subst_typaram 2 [.Bool, .U64]).2 (by decide)

/-- C10: with concrete type arguments, `struct_tag` and `is_resource` succeed
regardless of what the fields sequence contains: the tag is built from
address, module, name and the argument tags, and the classification is the
declared flag. -/
theorem claim10_fields_not_traversed (s : FatStructType)
    (h : listConcrete s.ty_args = true) :
    (∃ tags, typeTagList s.ty_args = .ok tags ∧
      s.struct_tag = .ok (.mk s.address s.module s.name tags)) ∧
    (FatType.Struct s).is_resource = .ok s.is_resource :=
  ⟨FatStructType.struct_tag_concrete s h, rfl⟩

/-- C10 witness: a struct whose fields contain a `TyParam` and a `Reference`
still has a tag and a classification. -/
theorem claim10_witness :
    (∃ tags, typeTagList (FatStructType.mk 0 "M" "S" true [.U64]
        [.TyParam 0, .Reference .Bool]).ty_args = .ok tags ∧
      (FatStructType.mk 0 "M" "S" true [.U64] [.TyParam 0, .Reference .Bool]).struct_tag
        = .ok (.mk (FatStructType.mk 0 "M" "S" true [.U64]
            [.TyParam 0, .Reference .Bool]).address
          (FatStructType.mk 0 "M" "S" true [.U64] [.TyParam 0, .Reference .Bool]).module
          (FatStructType.mk 0 "M" "S" true [.U64] [.TyParam 0, .Reference .Bool]).name
          tags)) ∧
    (FatType.Struct (.mk 0 "M" "S" true [.U64] [.TyParam 0, .Reference .Bool])).is_resource
      = .ok (FatStructType.mk 0 "M" "S" true [.U64]
          [.TyParam 0, .Reference .Bool]).is_resource :=
  claim10_fields_not_traversed (.mk 0 "M" "S" true [.U64] [.TyParam 0, .Reference .Bool]) rfl

end LibraTypes
